import Mathlib

/-!
Formal model of the learning-session engine of the lang-focus bot.

Python code is embedded shallowly:
* machine integers are `Int`;
* the mastery EMA of the progress tracker, where a one-ulp float difference
  crosses an `int()` truncation boundary, is modelled bit-exactly as
  IEEE-754 binary64 arithmetic over scaled integers (`flBits` rounds to 53
  significant bits, ties to even); the keyword-overlap confidences of the
  trick engine are exact rationals `ℚ`;
* SQL tables are lists of row structures, and each database-mutating method is
  a pure function from the old table to the new one;
* `datetime` values are a wall-clock reading plus an optional UTC offset
  (`none` = naive); subtracting datetimes of mixed awareness is `none`
  (Python raises `TypeError` there);
* `random.sample` is an explicit function argument constrained by
  `SampleSpec`, and the AI scoring call is an explicit `OracleOutcome`
  argument (success payload, unparsable output, or a raised error).
-/

/-! ## Binary64 arithmetic, as scaled integers

A double is represented by its exact value written as an integer numerator
over a fixed power-of-two denominator (the "scale").  Every double in
`[2^-2, 2^108)` — in particular every nonzero value this program's mastery
computation can meet — is an integer multiple of `2^-54`, so correctly
rounding an exact intermediate result to binary64 is exactly "keep 53
significant bits of the numerator, ties to even", independent of the scale.
-/

/-- `⌊log2 x⌋` for `1 ≤ x < 2^128`: the position of the top bit. -/
def intLog2 (x : ℤ) : ℕ :=
  ((List.range 128).filter (fun e => (2 : ℤ) ^ e ≤ x)).length - 1

/-- Round `x / 2^s` (for `0 ≤ x`) to the nearest integer, ties to even. -/
def roundHalfEvenDiv (x : ℤ) (s : ℕ) : ℤ :=
  let p : ℤ := 2 ^ s
  let q := x / p
  let r := x % p
  let half := p / 2
  if half < r then q + 1
  else if r < half then q
  else if q % 2 = 0 then q else q + 1

/-- IEEE-754 binary64 rounding (round to nearest, ties to even) of a
nonnegative scaled-integer numerator: keep 53 significant bits.  Values
whose numerator already fits in 53 bits are exact. -/
def flBits (x : ℤ) : ℤ :=
  if x ≤ 0 then 0
  else
    let t := intLog2 x
    if t ≤ 52 then x
    else roundHalfEvenDiv x (t - 52) * 2 ^ (t - 52)

/-! ## Progress tracker (`progress_tracker.py`) -/

/-- One row of the `user_progress` table (the three columns read and written
by `ProgressTracker.update_progress`). -/
structure UserProgressRow where
  mastery_level : ℤ
  total_attempts : ℤ
  correct_attempts : ℤ
  deriving DecidableEq, Repr

/-- The double `0.3` (`score_weight` in the source), at scale `2^-54`:
`0.3 = 5404319552844595 / 2^54` in binary64. -/
def score_weight_units : ℤ := 5404319552844595

/-- The double `1 - score_weight`, at scale `2^-54`.  The subtraction
`1 - 0.3` is itself a float operation; its exact result lands halfway
between two doubles and ties-to-even resolves it to the double `0.7`
(`update_progress_correct` records the resulting numerator). -/
def one_minus_weight_units : ℤ := flBits (2 ^ 54 - score_weight_units)

/-- The float expression `current_mastery * (1 - score_weight) +
score * score_weight` of `update_progress`, evaluated in binary64.
`current_mastery` is the integer mastery column; `score_units` is the score
double at scale `2^-54` (which represents 0 and every double in
`[1/4, 100]`, hence every reachable score).  Result scale: `2^-108`. -/
def pyFloatEMA (current_mastery : ℤ) (score_units : ℤ) : ℤ :=
  let p1 := flBits (current_mastery * one_minus_weight_units)
  let p2 := flBits (score_units * score_weight_units)
  flBits (p1 * 2 ^ 54 + p2)

/-- Python `int(x)` (truncation toward zero) on a value at scale `2^-108`. -/
def truncUnits108 (x : ℤ) : ℤ :=
  if 0 ≤ x then x / 2 ^ 108 else -((-x) / 2 ^ 108)

/-- Python `int(x)` (truncation toward zero) on a value at scale `2^-54`. -/
def pyIntUnits54 (x : ℤ) : ℤ :=
  if 0 ≤ x then x / 2 ^ 54 else -((-x) / 2 ^ 54)

/-- The double holding the integer value `n`, at scale `2^-54`. -/
def dbl (n : ℤ) : ℤ := n * 2 ^ 54

/-- The mastery recomputation inside `update_progress` for an existing row:
`new_mastery = int(current_mastery * (1 - 0.3) + score * 0.3)` (the float
expression, then truncation) followed by
`new_mastery = max(0, min(100, new_mastery))`. -/
def newMasteryLevel (current_mastery : ℤ) (score_units : ℤ) : ℤ :=
  max 0 (min 100 (truncUnits108 (pyFloatEMA current_mastery score_units)))

/-- `ProgressTracker.update_progress`, as a function from the prior row for
`(user_id, trick_id)` (if any) to the row stored afterwards; the score is
the double `score_units / 2^54`. -/
def update_progress (current_progress : Option UserProgressRow) (score_units : ℤ)
    (is_correct : Bool) : UserProgressRow :=
  match current_progress with
  | some p =>
      { mastery_level := newMasteryLevel p.mastery_level score_units
        total_attempts := p.total_attempts + 1
        correct_attempts := p.correct_attempts + (if is_correct then 1 else 0) }
  | none =>
      { mastery_level := pyIntUnits54 score_units
        total_attempts := 1
        correct_attempts := if is_correct then 1 else 0 }

/-- Modelled from the spec wording (not from the source): new mastery =
`round(clamp(0, 100, 0.7*M + 0.3*S))`, to be compared with `newMasteryLevel`. -/
def specMasteryLevel (M S : ℚ) : ℤ :=
  round (max 0 (min 100 (7 / 10 * M + 3 / 10 * S)))

/-- The loop of `ProgressTracker._calculate_learning_streak`: dates are day
numbers (distinct, descending); `s` is the streak accumulated so far. -/
def streakLoop (today : ℤ) : List ℤ → ℕ → ℕ
  | [], s => s
  | practice_date :: rest, s =>
      let expected_date := today - (s : ℤ)
      if practice_date = expected_date then streakLoop today rest (s + 1)
      else if practice_date = expected_date - 1 then streakLoop today rest (s + 1)
      else s

/-- `ProgressTracker._calculate_learning_streak`: `dates` is the list of
distinct practice dates in descending order. -/
def calculate_learning_streak (today : ℤ) (dates : List ℤ) : ℕ :=
  if dates.isEmpty then 0 else streakLoop today dates 0

/-! ## Trick engine (`trick_engine.py`) -/

/-- `LanguageTrick` dataclass; the `examples` dict (context → example list)
is an association list. -/
structure LanguageTrick where
  id : ℤ
  name : String
  definition : String
  keywords : List String
  examples : List (String × List String)
  deriving DecidableEq, Repr

/-- Result of `TrickEngine.classify_response`. -/
structure TrickClassification where
  detected_trick_id : Option ℤ
  confidence : ℚ
  explanation : String
  deriving DecidableEq, Repr

/-- Python `s.lower()`, on the character sequence of a string. -/
def pyLower (s : String) : List Char := s.data.map Char.toLower

/-- Python `kw in resp` substring test (both already lowered). -/
def containsLower (resp kw : List Char) : Bool := decide (kw <:+: resp)

/-- The keyword-counting loop of `classify_response`:
how many of `keywords` occur (lowercased) inside `response_lower`. -/
def keywordMatches (response_lower : List Char) (keywords : List String) : ℕ :=
  (keywords.filter (fun kw => containsLower response_lower (pyLower kw))).length

/-- `(matches / total) * 100 if total > 0 else 0` — used both for the target
trick and for every other trick in the best-match scan. -/
def trickConfidence (response_lower : List Char) (keywords : List String) : ℚ :=
  if keywords.length > 0 then
    ((keywordMatches response_lower keywords : ℚ) / (keywords.length : ℚ)) * 100
  else 0

/-- `TrickEngine.get_trick_by_id` as a lookup; `none` models the
`ValueError` raised when the id is absent. -/
def getTrickById (tricks : List LanguageTrick) (trick_id : ℤ) : Option LanguageTrick :=
  tricks.find? (fun t => decide (t.id = trick_id))

/-- One iteration of the best-match scan of `classify_response`: a non-target
trick with strictly higher keyword confidence replaces the current best. -/
def bestStep (response_lower : List Char) (target_trick_id : ℤ)
    (b : ℤ × ℚ) (trick : LanguageTrick) : ℤ × ℚ :=
  if trick.id = target_trick_id then b
  else
    let trick_confidence := trickConfidence response_lower trick.keywords
    if trick_confidence > b.2 then (trick.id, trick_confidence) else b

/-- The best-match scan of `classify_response`, starting from the target's
`(id, confidence)`. -/
def bestMatch (tricks : List LanguageTrick) (response_lower : List Char)
    (target_trick_id : ℤ) (confidence : ℚ) : ℤ × ℚ :=
  tricks.foldl (bestStep response_lower target_trick_id) (target_trick_id, confidence)

/-- `TrickEngine.classify_response`. -/
def classify_response (tricks : List LanguageTrick) (response : String)
    (target_trick_id : ℤ) : Option TrickClassification :=
  match getTrickById tricks target_trick_id with
  | none => none
  | some target_trick =>
      let response_lower := pyLower response
      let keyword_matches := keywordMatches response_lower target_trick.keywords
      let total_keywords := target_trick.keywords.length
      let confidence := trickConfidence response_lower target_trick.keywords
      let best := bestMatch tricks response_lower target_trick_id confidence
      let detected_trick_id : Option ℤ := if best.2 > 20 then some best.1 else none
      let explanation := s!"Обнаружено совпадений ключевых слов: {keyword_matches}/{total_keywords}"
      let explanation :=
        if detected_trick_id ≠ some target_trick_id then
          match detected_trick_id.bind (getTrickById tricks) with
          | some detected_trick =>
              let dname := detected_trick.name
              explanation ++ s!". Возможно, использован фокус \x27{dname}\x27"
          | none => explanation
        else explanation
      some ⟨detected_trick_id, best.2, explanation⟩

/-- `TrickEngine.get_examples_for_trick` (dict lookup with fallback to
the `everyday` context). -/
def get_examples_for_trick (trick : LanguageTrick) (context : String) : List String :=
  let examples := (trick.examples.lookup context).getD []
  if examples = [] ∧ context ≠ "everyday" then (trick.examples.lookup "everyday").getD []
  else examples

/-- Contract of Python's `random.sample xs k` for `k ≤ len xs`: `k` elements,
all drawn from `xs`. The sampler itself is passed in as a function. -/
def SampleSpec (sample : List String → ℕ → List String) : Prop :=
  ∀ xs k, k ≤ xs.length → (sample xs k).length = k ∧ ∀ x ∈ sample xs k, x ∈ xs

/-- `TrickEngine.get_random_examples`, with the random sampler explicit. -/
def get_random_examples (sample : List String → ℕ → List String)
    (trick : LanguageTrick) (count : ℕ) (context : String) : List String :=
  let examples := get_examples_for_trick trick context
  if examples = [] then []
  else sample examples (min count examples.length)

/-! ## Feedback engine (`feedback_engine.py`) -/

/-- `ResponseAnalysis` dataclass (the free-form `analysis_data` dict carries
no behaviour relevant here and is not modelled). -/
structure ResponseAnalysis where
  is_correct : Bool
  score : ℚ
  feedback : String
  improvements : List String
  detected_trick : Option String
  confidence : ℚ
  deriving DecidableEq, Repr

/-- The fields `analyze_response` reads out of the oracle's parsed JSON
(each may be missing; the code supplies defaults with `.get`). -/
structure AnalysisData where
  is_correct : Option Bool
  score : Option ℚ
  feedback : Option String
  improvements : Option (List String)
  detected_trick : Option String
  deriving DecidableEq, Repr

/-- Outcome of the scoring-oracle call: the call raised, it returned text
that is not parseable JSON, or it returned parseable JSON. -/
inductive OracleOutcome where
  | error : OracleOutcome
  | unparsable : OracleOutcome
  | parsed : AnalysisData → OracleOutcome
  deriving DecidableEq, Repr

/-- `FeedbackEngine._fallback_analysis`; `none` models the propagated
`ValueError` when the target trick id is not in the trick table. -/
def fallback_analysis (tricks : List LanguageTrick) (response : String)
    (target_trick : LanguageTrick) : Option ResponseAnalysis :=
  (classify_response tricks response target_trick.id).map fun classification =>
    let is_correct := decide ((30 : ℚ) ≤ classification.confidence)
    let score := classification.confidence
    let cexpl := classification.explanation
    let feedback := s!"Анализ выполнен базовым алгоритмом. {cexpl}"
    let tname := target_trick.name
    let kws := String.intercalate ", " (target_trick.keywords.take 3)
    let feedback :=
      if is_correct then feedback
      else feedback ++ s!" Попробуйте использовать ключевые слова фокуса \x27{tname}\x27: {kws}"
    { is_correct := is_correct
      score := score
      feedback := feedback
      improvements := ["Используйте больше ключевых слов данного фокуса",
                       "Изучите примеры применения"]
      detected_trick := if is_correct then some tname else none
      confidence := score / 100 }

/-- `FeedbackEngine.analyze_response`: parse the oracle outcome, or fall back
to the local classifier on a raised error or unparsable output. -/
def analyze_response (outcome : OracleOutcome) (tricks : List LanguageTrick)
    (response : String) (target_trick : LanguageTrick) : Option ResponseAnalysis :=
  match outcome with
  | .parsed analysis_data =>
      some { is_correct := analysis_data.is_correct.getD false
             score := analysis_data.score.getD 0
             feedback := analysis_data.feedback.getD ""
             improvements := analysis_data.improvements.getD []
             detected_trick := analysis_data.detected_trick
             confidence := (analysis_data.score.getD 0) / 100 }
  | .unparsable => fallback_analysis tricks response target_trick
  | .error => fallback_analysis tricks response target_trick

/-! ## Session manager (`session_manager.py`) -/

/-- A Python `datetime`: a wall-clock reading plus an optional UTC offset
(`none` = timezone-naive).  `tzoffset` models `tzinfo`. -/
structure PyDatetime where
  wall : ℤ
  tzoffset : Option ℤ
  deriving DecidableEq, Repr

/-- `d.replace(tzinfo=tz)`: relabels the same wall-clock reading. -/
def pyReplaceTz (d : PyDatetime) (tz : Option ℤ) : PyDatetime :=
  { d with tzoffset := tz }

/-- Subtraction of two `datetime`s: defined for naive−naive and
aware−aware; mixed awareness is `none` (Python raises `TypeError`). -/
def pySubtract (a b : PyDatetime) : Option ℤ :=
  match a.tzoffset, b.tzoffset with
  | none, none => some (a.wall - b.wall)
  | some oa, some ob => some ((a.wall - oa) - (b.wall - ob))
  | _, _ => none

/-- `SessionStatus` enum. -/
inductive SessionStatus where
  | active : SessionStatus
  | completed : SessionStatus
  | abandoned : SessionStatus
  deriving DecidableEq, Repr

/-- `LearningSession` dataclass / one row of `learning_sessions` (the
free-form `session_data` dict carries no behaviour relevant here and is not
modelled). -/
structure LearningSession where
  id : ℤ
  user_id : ℤ
  statement_id : ℤ
  session_type : String
  status : SessionStatus
  current_trick_index : Option ℤ
  started_at : PyDatetime
  completed_at : Option PyDatetime
  deriving DecidableEq, Repr

/-- The `LearningSession.duration` property, with the current time passed
in for the active-session branch (`datetime.now()` is naive). -/
def sessionDuration (s : LearningSession) (now : PyDatetime) : Option ℤ :=
  match s.completed_at with
  | some c =>
      if c.tzoffset.isSome ∧ s.started_at.tzoffset = none then
        pySubtract c (pyReplaceTz s.started_at c.tzoffset)
      else if c.tzoffset = none ∧ s.started_at.tzoffset.isSome then
        pySubtract (pyReplaceTz c s.started_at.tzoffset) s.started_at
      else
        pySubtract c s.started_at
  | none =>
      if s.started_at.tzoffset.isSome ∧ now.tzoffset = none then
        pySubtract (pyReplaceTz now s.started_at.tzoffset) s.started_at
      else if s.started_at.tzoffset = none ∧ now.tzoffset.isSome then
        pySubtract now (pyReplaceTz s.started_at now.tzoffset)
      else
        pySubtract now s.started_at

/-- One row of `training_statements`. -/
structure TrainingStatement where
  id : ℤ
  statement : String
  category : String
  difficulty : String
  deriving DecidableEq, Repr

/-- One row of `user_responses` (the two columns `_get_attempt_number`
filters on). -/
structure UserResponseRow where
  session_id : ℤ
  trick_id : ℤ
  deriving DecidableEq, Repr

/-- `Challenge` dataclass. -/
structure Challenge where
  statement_id : ℤ
  statement_text : String
  statement_category : String
  statement_difficulty : String
  target_trick_id : ℤ
  target_trick_name : String
  target_trick_definition : String
  examples : List String
  attempt_number : ℤ
  deriving DecidableEq, Repr

/-- `data_loader.get_statement_by_id` as a lookup. -/
def getStatementById (statements : List TrainingStatement) (statement_id : ℤ) :
    Option TrainingStatement :=
  statements.find? (fun st => decide (st.id = statement_id))

/-- `LearningSessionManager._get_attempt_number`: count of stored responses
for this (session, trick) pair, plus one. -/
def getAttemptNumber (responses : List UserResponseRow) (session_id trick_id : ℤ) : ℤ :=
  ((responses.filter
      (fun r => decide (r.session_id = session_id ∧ r.trick_id = trick_id))).length : ℤ) + 1

/-- `LearningSessionManager.get_next_challenge`:
`Except.error` models the exceptions raised by the trick/statement lookups. -/
def getNextChallenge (tricks : List LanguageTrick) (statements : List TrainingStatement)
    (responses : List UserResponseRow) (sample : List String → ℕ → List String)
    (session : LearningSession) : Except String (Option Challenge) :=
  let current_index := session.current_trick_index.getD 0
  if 14 ≤ current_index then .ok none
  else
    let next_trick_id := current_index + 1
    match getTrickById tricks next_trick_id, getStatementById statements session.statement_id with
    | some trick, some statement =>
        .ok (some
          { statement_id := statement.id
            statement_text := statement.statement
            statement_category := statement.category
            statement_difficulty := statement.difficulty
            target_trick_id := trick.id
            target_trick_name := trick.name
            target_trick_definition := trick.definition
            examples := get_random_examples sample trick 2 "everyday"
            attempt_number := getAttemptNumber responses session.id next_trick_id })
    | _, _ => .error "not found"

/-- `ORDER BY started_at DESC LIMIT 1` over a list of rows: the row with the
largest `started_at` (earlier row wins ties), `none` on the empty list. -/
def pickLatest : List LearningSession → Option LearningSession
  | [] => none
  | s :: rest =>
      match pickLatest rest with
      | none => some s
      | some b => if s.started_at.wall < b.started_at.wall then some b else some s

/-- `LearningSessionManager.get_active_session`. -/
def getActiveSession (rows : List LearningSession) (user_id : ℤ) : Option LearningSession :=
  pickLatest (rows.filter
    (fun s => decide (s.user_id = user_id ∧ s.status = SessionStatus.active)))

/-- `LearningSessionManager.start_session`: returns the session handed back
to the caller and the table afterwards.  `fresh_id` is the id the database
would generate, `statement_id` the randomly selected statement, `now` the
clock reading — all explicit inputs. -/
def start_session (rows : List LearningSession) (user_id : ℤ) (session_type : String)
    (fresh_id statement_id : ℤ) (now : PyDatetime) :
    LearningSession × List LearningSession :=
  match getActiveSession rows user_id with
  | some existing_session => (existing_session, rows)
  | none =>
      let session : LearningSession :=
        { id := fresh_id
          user_id := user_id
          statement_id := statement_id
          session_type := session_type
          status := SessionStatus.active
          current_trick_index := some 0
          started_at := now
          completed_at := none }
      (session, rows ++ [session])

/-- `LearningSessionManager.update_session_progress`, restricted to the new
cursor it stores: `max(current_trick_index or 0, completed_trick_id or 0)`. -/
def updateSessionProgress (current_trick_index : Option ℤ)
    (completed_trick_id : Option ℤ) : ℤ :=
  max (current_trick_index.getD 0) (completed_trick_id.getD 0)

/-- Effect of `complete_session`'s `UPDATE ... SET status='completed',
completed_at=now WHERE id=sid` on one row (no status guard in the `WHERE`). -/
def completeRow (sid : ℤ) (now : PyDatetime) (s : LearningSession) : LearningSession :=
  if s.id = sid then { s with status := SessionStatus.completed, completed_at := some now }
  else s

/-- Effect of `abandon_session`'s `UPDATE ... SET status='abandoned'
WHERE id=sid` on one row (no status guard in the `WHERE`). -/
def abandonRow (sid : ℤ) (s : LearningSession) : LearningSession :=
  if s.id = sid then { s with status := SessionStatus.abandoned } else s

/-- Effect of `cleanup_old_sessions` on one row: only *active* sessions
started before the cutoff are marked abandoned. -/
def cleanupRow (cutoff : ℤ) (s : LearningSession) : LearningSession :=
  if s.status = SessionStatus.active ∧ s.started_at.wall < cutoff then
    { s with status := SessionStatus.abandoned }
  else s

/-- `complete_session`'s table update. -/
def completeSessionRows (rows : List LearningSession) (sid : ℤ) (now : PyDatetime) :
    List LearningSession :=
  rows.map (completeRow sid now)

/-- `abandon_session`'s table update. -/
def abandonSessionRows (rows : List LearningSession) (sid : ℤ) : List LearningSession :=
  rows.map (abandonRow sid)

/-- `cleanup_old_sessions`'s table update. -/
def cleanupOldSessions (rows : List LearningSession) (cutoff : ℤ) : List LearningSession :=
  rows.map (cleanupRow cutoff)

/-- Number of active sessions a user has. -/
def activeCount (rows : List LearningSession) (user_id : ℤ) : ℕ :=
  (rows.filter (fun s => decide (s.user_id = user_id ∧ s.status = SessionStatus.active))).length

/-! ## Reminder scheduler (`reminder_scheduler.py`) -/

/-- One row of `reminder_tracking` (joined with `users`; membership of the
user in the `users` table is the `users` list argument below). -/
structure ReminderRow where
  user_id : ℤ
  reminders_enabled : Bool
  last_practice_date : Option ℤ
  last_reminder_date : Option ℤ
  reminder_count : ℤ
  deriving DecidableEq, Repr

/-- `col IS NULL OR col <= $1` of the eligibility query. -/
def staleOrNull (d : Option ℤ) (cutoff : ℤ) : Bool :=
  match d with
  | none => true
  | some x => decide (x ≤ cutoff)

/-- `ReminderScheduler._get_users_to_remind`: the eligibility query, with
`seven_days_ago` the computed cutoff and `users` the ids present in the
`users` table (`INNER JOIN`). -/
def getUsersToRemind (tracking : List ReminderRow) (users : List ℤ)
    (seven_days_ago : ℤ) : List ReminderRow :=
  tracking.filter fun rt =>
    users.contains rt.user_id && rt.reminders_enabled
      && staleOrNull rt.last_practice_date seven_days_ago
      && staleOrNull rt.last_reminder_date seven_days_ago

/-! ## Concrete instances used in witnesses and counterexamples -/

/-- One `update_session_progress` step on the cursor, as iterated below. -/
def applyUpdate (c : ℤ) (t : Option ℤ) : ℤ := updateSessionProgress (some c) t

/-- A tracking row with reminders disabled and null dates. -/
def demoRemRow : ReminderRow := ⟨1, false, none, none, 0⟩

/-- A session with a naive start and an aware completion timestamp. -/
def demoSession9 : LearningSession :=
  { id := 1, user_id := 7, statement_id := 3, session_type := "practice"
    status := SessionStatus.completed, current_trick_index := some 14
    started_at := ⟨10, none⟩, completed_at := some ⟨25, some 3⟩ }

/-- A trick with three everyday examples. -/
def demoTrick : LanguageTrick :=
  ⟨1, "tr", "df", ["kw"], [("everyday", ["ex1", "ex2", "ex3"])]⟩

/-- A training statement with id 3. -/
def demoStatement : TrainingStatement := ⟨3, "st", "cat", "easy"⟩

/-- An active session at cursor 0 over statement 3. -/
def demoSession3 : LearningSession :=
  { id := 11, user_id := 7, statement_id := 3, session_type := "practice"
    status := SessionStatus.active, current_trick_index := some 0
    started_at := ⟨0, none⟩, completed_at := none }

/-- A deterministic sampler satisfying `SampleSpec`. -/
def demoSample : List String → ℕ → List String := fun xs k => xs.take k

/-- A session already in the terminal `completed` state. -/
def demoCompleted : LearningSession :=
  { id := 1, user_id := 7, statement_id := 3, session_type := "practice"
    status := SessionStatus.completed, current_trick_index := some 14
    started_at := ⟨0, none⟩, completed_at := some ⟨5, none⟩ }

/-- Target trick for the best-match counterexample: two keywords. -/
def cexTrickA : LanguageTrick := ⟨1, "A", "", ["aa", "bb"], []⟩

/-- Competing trick for the best-match counterexample: one keyword. -/
def cexTrickB : LanguageTrick := ⟨2, "B", "", ["cc"], []⟩

/-- A single-keyword trick for the fallback witnesses. -/
def demoTrick8 : LanguageTrick := ⟨1, "T", "", ["key"], []⟩

/-- The classification `classify_response` computes for `demoTrick8` on the
response `"my key"`. -/
def demoCl10 : TrickClassification :=
  ⟨some 1, 100, "Обнаружено совпадений ключевых слов: 1/1"⟩

/-! ## Theorems -/

lemma staleOrNull_eq_true (d : Option ℤ) (c : ℤ) :
    staleOrNull d c = true ↔ ∀ x, d = some x → x ≤ c := by
  cases d <;> simp [staleOrNull]

/-- C5: each `update_session_progress` call stores
`max(current_trick_index or 0, completed_trick_id or 0)`, and the cursor
trace along any sequence of calls (arbitrary, possibly out-of-order trick
ids) is monotonically non-decreasing. -/
theorem session_cursor_monotone (current : Option ℤ) (ids : List (Option ℤ)) :
    (∀ (c : ℤ) (t : Option ℤ), updateSessionProgress (some c) t = max c (t.getD 0)) ∧
    List.Chain' (· ≤ ·) (List.scanl applyUpdate (current.getD 0) ids) := by
  refine ⟨fun c t => rfl, ?_⟩
  generalize current.getD 0 = b
  induction ids generalizing b with
  | nil => simp
  | cons a l ih =>
      rw [List.scanl]
      refine List.chain'_cons'.mpr ⟨?_, ih _⟩
      intro y hy
      have hhead : applyUpdate b a = y := by
        cases l <;> simpa [List.scanl] using hy
      subst hhead
      exact le_max_left _ _

/-- C7: a tracking row is returned by the eligibility query iff its user is
in the `users` table, `reminders_enabled` is true, and each of
`last_practice_date` and `last_reminder_date` is null or at least as old as
the cutoff.  In particular a row with reminders disabled is never selected,
and one whose practice date is newer than the cutoff (e.g. practiced today)
is excluded even if it was never reminded. -/
theorem users_to_remind_spec (tracking : List ReminderRow) (users : List ℤ)
    (cutoff : ℤ) (rt : ReminderRow) :
    (rt ∈ getUsersToRemind tracking users cutoff ↔
      rt ∈ tracking ∧ rt.user_id ∈ users ∧ rt.reminders_enabled = true ∧
      (∀ d, rt.last_practice_date = some d → d ≤ cutoff) ∧
      (∀ d, rt.last_reminder_date = some d → d ≤ cutoff)) ∧
    (rt.reminders_enabled = false → rt ∉ getUsersToRemind tracking users cutoff) ∧
    (∀ d, rt.last_practice_date = some d → cutoff < d →
      rt ∉ getUsersToRemind tracking users cutoff) := by
  have hiff : rt ∈ getUsersToRemind tracking users cutoff ↔
      rt ∈ tracking ∧ rt.user_id ∈ users ∧ rt.reminders_enabled = true ∧
      (∀ d, rt.last_practice_date = some d → d ≤ cutoff) ∧
      (∀ d, rt.last_reminder_date = some d → d ≤ cutoff) := by
    simp [getUsersToRemind, List.mem_filter, staleOrNull_eq_true, and_assoc]
  refine ⟨hiff, fun hdis hmem => ?_, fun d hd hlt hmem => ?_⟩
  · have := (hiff.mp hmem).2.2.1
    rw [hdis] at this
    exact Bool.false_ne_true this
  · have := (hiff.mp hmem).2.2.2.1 d hd
    omega

/-- C7 witness: a disabled row is not selected even with null dates. -/
theorem users_to_remind_spec_witness :
    demoRemRow.reminders_enabled = false ∧
    demoRemRow ∉ getUsersToRemind [demoRemRow] [1] 0 :=
  ⟨rfl, (users_to_remind_spec [demoRemRow] [1] 0 demoRemRow).2.1 rfl⟩

/-- C9: with the current time naive (as `datetime.now()` returns), the
duration property is total — it never hits the mixed-awareness `TypeError`
case of datetime subtraction — and on a timezone-awareness mismatch it
relabels the naive side with the aware side's offset, so the result is the
plain wall-clock difference `completed_at − started_at` (terminal sessions)
or `now − started_at` (active sessions). -/
theorem session_duration_total (s : LearningSession) (now : PyDatetime)
    (hnow : now.tzoffset = none) :
    (sessionDuration s now).isSome = true ∧
    (∀ c, s.completed_at = some c → c.tzoffset.isSome ≠ s.started_at.tzoffset.isSome →
      sessionDuration s now = some (c.wall - s.started_at.wall)) ∧
    (s.completed_at = none → s.started_at.tzoffset.isSome = true →
      sessionDuration s now = some (now.wall - s.started_at.wall)) := by
  refine ⟨?_, ?_, ?_⟩
  · rcases hc : s.completed_at with _ | c
    · rcases hso : s.started_at.tzoffset with _ | os <;>
        simp [sessionDuration, hc, hso, hnow, pySubtract, pyReplaceTz]
    · rcases hco : c.tzoffset with _ | oc <;> rcases hso : s.started_at.tzoffset with _ | os <;>
        simp [sessionDuration, hc, hco, hso, pySubtract, pyReplaceTz]
  · intro c' hc' hne
    rcases hco : c'.tzoffset with _ | oc <;> rcases hso : s.started_at.tzoffset with _ | os
    · simp [hco, hso] at hne
    · simp only [sessionDuration, hc', hco, hso, pySubtract, pyReplaceTz]
      simp only [Option.isSome_none, Option.isSome_some, reduceCtorEq, and_false, false_and,
        and_true, if_false, if_true, and_self, ite_true, ite_false, reduceIte]
      congr 1
      ring
    · simp only [sessionDuration, hc', hco, hso, pySubtract, pyReplaceTz]
      simp only [Option.isSome_none, Option.isSome_some, reduceCtorEq, and_false, false_and,
        and_true, if_false, if_true, and_self, ite_true, ite_false, reduceIte]
      congr 1
      ring
    · simp [hco, hso] at hne
  · intro hc hstart
    rcases hso : s.started_at.tzoffset with _ | os
    · rw [hso] at hstart
      exact absurd hstart (by simp)
    · simp only [sessionDuration, hc, hso, hnow, pySubtract, pyReplaceTz]
      simp only [Option.isSome_none, Option.isSome_some, reduceCtorEq, and_false, false_and,
        and_true, if_false, if_true, and_self, ite_true, ite_false, reduceIte]
      congr 1
      ring

/-- C9 witness: a session completed with a timezone-aware timestamp but
started with a naive one still gets a duration (wall difference 15). -/
theorem session_duration_total_witness :
    (⟨100, none⟩ : PyDatetime).tzoffset = none ∧
    (sessionDuration demoSession9 ⟨100, none⟩).isSome = true ∧
    sessionDuration demoSession9 ⟨100, none⟩ = some 15 :=
  ⟨rfl, (session_duration_total demoSession9 ⟨100, none⟩ rfl).1,
    (session_duration_total demoSession9 ⟨100, none⟩ rfl).2.1 ⟨25, some 3⟩ rfl (by decide)⟩

set_option maxRecDepth 20000 in
/-- C1, counterexample: with an existing record of mastery 50 and a new score
99, the code stores `int(0.7*50 + 0.3*99) = int(64.7) = 64`, while the
claimed law `round(clamp(0,100, 0.7*50 + 0.3*99)) = round(64.7)` gives 65. -/
theorem update_progress_round_counterexample :
    (update_progress (some ⟨50, 3, 2⟩) (dbl 99) true).mastery_level = 64 ∧
    specMasteryLevel 50 99 = 65 ∧ (64 : ℤ) ≠ 65 := by
  refine ⟨by decide, ?_, by decide⟩
  show round (max 0 (min 100 ((7 : ℚ) / 10 * 50 + 3 / 10 * 99))) = 65
  norm_num [round_eq]

set_option maxRecDepth 20000 in
/-- C1, amended: `update_progress` on an existing record sets
`mastery_level = clamp(0, 100, trunc(e))` where `e` is the binary64
evaluation of `M * (1 - 0.3) + S * 0.3` — truncation toward zero, not
rounding — and increments `total_attempts` by 1 and `correct_attempts` by 1
iff `is_correct`; with no prior record it stores `mastery_level = int(S)`,
one total attempt, and 1 or 0 correct attempts.  The float subtraction
`1 - 0.3` ties to the double `0.7` (numerator `12610078956637388` at scale
`2^-54`); the claim's three sample points still give 65, 0 and 70; `M = 50,
S = 99` gives `int(64.7) = 64` (truncation, not `round(64.7) = 65`); and
double rounding can undershoot an exact integer EMA: at `M = 90, S = 0` the
exact EMA is 63 (`trunc` would keep 63) but the float product
`90 * 0.7 = 62.99999999999999` truncates to 62. -/
theorem update_progress_correct (p : UserProgressRow) (s : ℤ) (c : Bool) :
    (update_progress (some p) s c).mastery_level
        = max 0 (min 100 (truncUnits108 (pyFloatEMA p.mastery_level s))) ∧
    (update_progress (some p) s c).total_attempts = p.total_attempts + 1 ∧
    (update_progress (some p) s c).correct_attempts
        = p.correct_attempts + (if c then 1 else 0) ∧
    update_progress none s c
        = ⟨pyIntUnits54 s, 1, if c then 1 else 0⟩ ∧
    one_minus_weight_units = 12610078956637388 ∧
    newMasteryLevel 50 (dbl 100) = 65 ∧ newMasteryLevel 0 (dbl 0) = 0 ∧
    newMasteryLevel 100 (dbl 0) = 70 ∧
    newMasteryLevel 50 (dbl 99) = 64 ∧
    newMasteryLevel 90 (dbl 0) = 62 ∧ (⌊(7 : ℚ) / 10 * 90 + 3 / 10 * 0⌋ : ℤ) = 63 := by
  refine ⟨rfl, rfl, rfl, rfl, by decide, by decide, by decide, by decide, by decide,
    by decide, ?_⟩
  norm_num

/-- C2: on dates `[today, today-1, today-2]` the streak is 3, as the claim
says; but on `[today, today-2]` — a gap at `today-1` — the code returns 2,
not the claimed 1: the branch meant to "allow for yesterday if today hasn't
been practiced yet" fires on every loop iteration, so the gap is skipped. -/
theorem learning_streak_gap_eval :
    calculate_learning_streak 0 [0, -1, -2] = 3 ∧
    calculate_learning_streak 0 [0, -2] = 2 := by
  constructor <;> rfl

lemma sampleSpecTake : SampleSpec demoSample := by
  intro xs k hk
  constructor
  · simp [demoSample, List.length_take, Nat.min_eq_left hk]
  · intro x hx
    exact List.mem_of_mem_take hx

lemma get_random_examples_length_le (sample : List String → ℕ → List String)
    (hsample : SampleSpec sample) (trick : LanguageTrick) (count : ℕ) (context : String) :
    (get_random_examples sample trick count context).length ≤ count := by
  by_cases he : get_examples_for_trick trick context = []
  · simp [get_random_examples, he]
  · have hmin : min count (get_examples_for_trick trick context).length
        ≤ (get_examples_for_trick trick context).length := Nat.min_le_right _ _
    simp only [get_random_examples, if_neg he]
    rw [(hsample _ _ hmin).1]
    exact Nat.min_le_left _ _

/-- C3: `get_next_challenge` returns `none` exactly when the session cursor
(`current_trick_index or 0`) is ≥ 14; otherwise (given the lookups that the
code would otherwise raise on succeed) it returns a challenge whose target
trick id is cursor + 1, whose examples number at most 2, and whose attempt
number is the count of stored responses for this (session, trick) pair
plus 1. -/
theorem get_next_challenge_spec (tricks : List LanguageTrick)
    (statements : List TrainingStatement) (responses : List UserResponseRow)
    (sample : List String → ℕ → List String) (session : LearningSession)
    (hsample : SampleSpec sample)
    (htrick : session.current_trick_index.getD 0 < 14 →
      (getTrickById tricks (session.current_trick_index.getD 0 + 1)).isSome = true)
    (hstmt : session.current_trick_index.getD 0 < 14 →
      (getStatementById statements session.statement_id).isSome = true) :
    (getNextChallenge tricks statements responses sample session = Except.ok none ↔
      14 ≤ session.current_trick_index.getD 0) ∧
    (session.current_trick_index.getD 0 < 14 →
      ∃ ch, getNextChallenge tricks statements responses sample session
          = Except.ok (some ch) ∧
        ch.target_trick_id = session.current_trick_index.getD 0 + 1 ∧
        ch.examples.length ≤ 2 ∧
        ch.attempt_number = getAttemptNumber responses session.id
          (session.current_trick_index.getD 0 + 1)) := by
  by_cases h14 : 14 ≤ session.current_trick_index.getD 0
  · refine ⟨?_, fun hlt => absurd h14 (not_le.mpr hlt)⟩
    simp [getNextChallenge, h14]
  · push_neg at h14
    obtain ⟨trick, htr⟩ := Option.isSome_iff_exists.mp (htrick h14)
    obtain ⟨st, hst⟩ := Option.isSome_iff_exists.mp (hstmt h14)
    have hid : trick.id = session.current_trick_index.getD 0 + 1 := by
      have := List.find?_some htr
      simpa using this
    have hres : getNextChallenge tricks statements responses sample session
        = Except.ok (some
          { statement_id := st.id
            statement_text := st.statement
            statement_category := st.category
            statement_difficulty := st.difficulty
            target_trick_id := trick.id
            target_trick_name := trick.name
            target_trick_definition := trick.definition
            examples := get_random_examples sample trick 2 "everyday"
            attempt_number := getAttemptNumber responses session.id
              (session.current_trick_index.getD 0 + 1) }) := by
      simp [getNextChallenge, not_le.mpr h14, htr, hst]
    refine ⟨?_, fun _ => ⟨_, hres, hid, get_random_examples_length_le sample hsample trick 2 _, rfl⟩⟩
    rw [hres]
    constructor
    · intro h
      exact absurd h (by simp)
    · intro h
      exact absurd h (not_le.mpr h14)

/-- C3 witness: at cursor 0 over a one-trick table the challenge targets
trick 1, carries at most 2 examples, and is attempt number 1. -/
theorem get_next_challenge_spec_witness :
    SampleSpec demoSample ∧
    ∃ ch, getNextChallenge [demoTrick] [demoStatement] [] demoSample demoSession3
        = Except.ok (some ch) ∧
      ch.target_trick_id = 1 ∧ ch.examples.length ≤ 2 ∧ ch.attempt_number = 1 := by
  refine ⟨sampleSpecTake, ?_⟩
  obtain ⟨ch, h1, h2, h3, h4⟩ :=
    (get_next_challenge_spec [demoTrick] [demoStatement] [] demoSample demoSession3
      sampleSpecTake (by decide) (by decide)).2 (by decide)
  refine ⟨ch, h1, ?_, h3, ?_⟩
  · rw [h2]; rfl
  · rw [h4]; rfl

lemma pickLatest_eq_none_iff (rows : List LearningSession) :
    pickLatest rows = none ↔ rows = [] := by
  cases rows with
  | nil => simp [pickLatest]
  | cons s rest =>
      simp only [pickLatest]
      constructor
      · intro h
        exfalso
        cases hp : pickLatest rest with
        | none =>
            rw [hp] at h
            exact Option.noConfusion h
        | some b =>
            rw [hp] at h
            dsimp only at h
            split at h <;> exact Option.noConfusion h
      · intro h
        exact absurd h (by simp)

/-- C4: starting from any table where the user has at most one active
session, a second `start_session` call right after a first one returns the
very same session and leaves the table unchanged (idempotent start), the
user still has at most one active session, and other users' active sessions
are untouched. -/
theorem start_session_idempotent (rows : List LearningSession) (user_id : ℤ)
    (t1 t2 : String) (id1 stmt1 id2 stmt2 : ℤ) (n1 n2 : PyDatetime)
    (h : activeCount rows user_id ≤ 1) :
    (start_session (start_session rows user_id t1 id1 stmt1 n1).2 user_id t2 id2 stmt2 n2).1
      = (start_session rows user_id t1 id1 stmt1 n1).1 ∧
    (start_session (start_session rows user_id t1 id1 stmt1 n1).2 user_id t2 id2 stmt2 n2).2
      = (start_session rows user_id t1 id1 stmt1 n1).2 ∧
    activeCount (start_session rows user_id t1 id1 stmt1 n1).2 user_id ≤ 1 ∧
    (∀ u, u ≠ user_id →
      activeCount (start_session rows user_id t1 id1 stmt1 n1).2 u = activeCount rows u) := by
  cases hact : getActiveSession rows user_id with
  | some ex =>
      have h1 : start_session rows user_id t1 id1 stmt1 n1 = (ex, rows) := by
        simp [start_session, hact]
      have h2 : start_session rows user_id t2 id2 stmt2 n2 = (ex, rows) := by
        simp [start_session, hact]
      rw [h1]
      rw [h2]
      exact ⟨rfl, rfl, h, fun u _ => rfl⟩
  | none =>
      have hfil : rows.filter
          (fun s => decide (s.user_id = user_id ∧ s.status = SessionStatus.active)) = [] := by
        have hx := hact
        unfold getActiveSession at hx
        exact (pickLatest_eq_none_iff _).mp hx
      have h1 : start_session rows user_id t1 id1 stmt1 n1
          = (⟨id1, user_id, stmt1, t1, SessionStatus.active, some 0, n1, none⟩,
             rows ++ [⟨id1, user_id, stmt1, t1, SessionStatus.active, some 0, n1, none⟩]) := by
        simp [start_session, hact]
      have hfil2 : (rows ++ [(⟨id1, user_id, stmt1, t1, SessionStatus.active, some 0, n1,
          none⟩ : LearningSession)]).filter
          (fun s => decide (s.user_id = user_id ∧ s.status = SessionStatus.active))
          = [⟨id1, user_id, stmt1, t1, SessionStatus.active, some 0, n1, none⟩] := by
        rw [List.filter_append, hfil]
        simp
      have hact2 : getActiveSession
          (rows ++ [(⟨id1, user_id, stmt1, t1, SessionStatus.active, some 0, n1,
            none⟩ : LearningSession)]) user_id
          = some ⟨id1, user_id, stmt1, t1, SessionStatus.active, some 0, n1, none⟩ := by
        unfold getActiveSession
        rw [hfil2]
        rfl
      have h2 : start_session
          (rows ++ [(⟨id1, user_id, stmt1, t1, SessionStatus.active, some 0, n1,
            none⟩ : LearningSession)]) user_id t2 id2 stmt2 n2
          = (⟨id1, user_id, stmt1, t1, SessionStatus.active, some 0, n1, none⟩,
             rows ++ [⟨id1, user_id, stmt1, t1, SessionStatus.active, some 0, n1, none⟩]) := by
        simp [start_session, hact2]
      rw [h1]
      rw [h2]
      refine ⟨rfl, rfl, ?_, ?_⟩
      · unfold activeCount
        rw [hfil2]
        simp
      · intro u hu
        unfold activeCount
        rw [List.filter_append]
        have hnone : ([(⟨id1, user_id, stmt1, t1, SessionStatus.active, some 0, n1,
            none⟩ : LearningSession)]).filter
            (fun s => decide (s.user_id = u ∧ s.status = SessionStatus.active)) = [] := by
          simp [Ne.symm hu]
        rw [hnone, List.append_nil]

/-- C4 witness: two consecutive starts from the empty table hand back the
same session. -/
theorem start_session_idempotent_witness :
    activeCount ([] : List LearningSession) 7 ≤ 1 ∧
    (start_session (start_session [] 7 "practice" 1 3 ⟨0, none⟩).2 7 "practice" 2 4
        ⟨1, none⟩).1
      = (start_session [] 7 "practice" 1 3 ⟨0, none⟩).1 :=
  ⟨by decide,
    (start_session_idempotent [] 7 "practice" "practice" 1 3 2 4 ⟨0, none⟩ ⟨1, none⟩
      (by decide)).1⟩

/-- C6, counterexample: `abandon_session` applied to an already *completed*
session flips its status to `abandoned` — a transition out of a terminal
state, because the `UPDATE` has no status guard. -/
theorem terminal_state_counterexample :
    demoCompleted.status = SessionStatus.completed ∧
    (abandonSessionRows [demoCompleted] 1).map (fun s => s.status)
      = [SessionStatus.abandoned] := by
  constructor <;> rfl

/-- C6, amended: `cleanup_old_sessions` really does leave every non-active
row untouched, and `complete_session`/`abandon_session` leave every row
other than the addressed one untouched; but on the addressed row they set
the status unconditionally — regardless of whether it was already terminal —
so the no-exit-from-terminal property holds only when they are invoked on
active sessions. -/
theorem session_status_transitions (cutoff sid : ℤ) (now : PyDatetime)
    (s : LearningSession) :
    (s.status ≠ SessionStatus.active → cleanupRow cutoff s = s) ∧
    (s.id ≠ sid → completeRow sid now s = s ∧ abandonRow sid s = s) ∧
    (s.id = sid → (completeRow sid now s).status = SessionStatus.completed ∧
      (abandonRow sid s).status = SessionStatus.abandoned) := by
  refine ⟨fun hs => ?_, fun hid => ⟨?_, ?_⟩, fun hid => ⟨?_, ?_⟩⟩
  · unfold cleanupRow
    rw [if_neg]
    rintro ⟨h1, _⟩
    exact hs h1
  · unfold completeRow
    rw [if_neg hid]
  · unfold abandonRow
    rw [if_neg hid]
  · unfold completeRow
    rw [if_pos hid]
  · unfold abandonRow
    rw [if_pos hid]

/-- C6 witness: cleanup leaves a completed session untouched, while a
directly addressed abandon overwrites its terminal status. -/
theorem session_status_transitions_witness :
    demoCompleted.status ≠ SessionStatus.active ∧
    cleanupRow 100 demoCompleted = demoCompleted ∧
    (abandonRow 1 demoCompleted).status = SessionStatus.abandoned :=
  ⟨by decide, (session_status_transitions 100 1 ⟨9, none⟩ demoCompleted).1 (by decide),
    ((session_status_transitions 100 1 ⟨9, none⟩ demoCompleted).2.2 rfl).2⟩

lemma foldl_bestStep_le (rl : List Char) (tid : ℤ) (l : List LanguageTrick) :
    ∀ acc : ℤ × ℚ, acc.2 ≤ (l.foldl (bestStep rl tid) acc).2 := by
  induction l with
  | nil => intro acc; exact le_refl _
  | cons t l ih =>
      intro acc
      refine le_trans ?_ (ih (bestStep rl tid acc t))
      unfold bestStep
      split
      · exact le_refl _
      · dsimp only
        split
        · next hgt => exact le_of_lt hgt
        · exact le_refl _

/-- C8, counterexample: with target trick A (keywords `aa`, `bb`) and a
competing trick B (keyword `cc`), the response `"cc"` matches 0 of A's 2
keywords — the claimed fallback confidence would be 0 — yet the fallback
score is 100, because the classifier reports the best-match confidence over
all tricks, not the target trick's keyword ratio. -/
theorem fallback_confidence_counterexample :
    ((analyze_response OracleOutcome.error [cexTrickA, cexTrickB] "cc" cexTrickA).map
      (fun r => r.score)) = some 100 ∧
    trickConfidence (pyLower "cc") cexTrickA.keywords = 0 ∧ (100 : ℚ) ≠ 0 := by
  have hkA : keywordMatches (pyLower "cc") cexTrickA.keywords = 0 := by decide
  have hkB : keywordMatches (pyLower "cc") cexTrickB.keywords = 1 := by decide
  have hcA : trickConfidence (pyLower "cc") cexTrickA.keywords = 0 := by
    unfold trickConfidence
    rw [hkA]
    norm_num [cexTrickA]
  have hcB : trickConfidence (pyLower "cc") cexTrickB.keywords = 100 := by
    unfold trickConfidence
    rw [hkB]
    norm_num [cexTrickB]
  have hfind : getTrickById [cexTrickA, cexTrickB] cexTrickA.id = some cexTrickA := by decide
  have hs1 : bestStep (pyLower "cc") cexTrickA.id (cexTrickA.id, (0 : ℚ)) cexTrickA
      = (cexTrickA.id, 0) := by
    unfold bestStep
    rw [if_pos rfl]
  have hs2 : bestStep (pyLower "cc") cexTrickA.id (cexTrickA.id, (0 : ℚ)) cexTrickB
      = (cexTrickB.id, 100) := by
    unfold bestStep
    rw [if_neg (by decide), hcB, if_pos (by norm_num)]
  have hbm : bestMatch [cexTrickA, cexTrickB] (pyLower "cc") cexTrickA.id
      (trickConfidence (pyLower "cc") cexTrickA.keywords) = (cexTrickB.id, 100) := by
    rw [hcA]
    unfold bestMatch
    rw [List.foldl_cons, hs1, List.foldl_cons, hs2, List.foldl_nil]
  refine ⟨?_, hcA, by norm_num⟩
  show ((fallback_analysis [cexTrickA, cexTrickB] "cc" cexTrickA).map
    (fun r => r.score)) = some 100
  unfold fallback_analysis classify_response
  rw [hfind]
  simp only [hbm, Option.map_some]
  rfl

/-- C8, amended: when the oracle call raises or its output is unparsable,
`analyze_response` returns the deterministic fallback analysis instead of
propagating the error (given the target trick is present in the trick
table, as the caller guarantees); the fallback's score is the classifier's
best-match keyword confidence over all tricks — at least, but not always
equal to, the target trick's matched/total × 100 — and its confidence field
is that score divided by 100. -/
theorem analyze_response_fallback (tricks : List LanguageTrick) (response : String)
    (target_trick : LanguageTrick) (outcome : OracleOutcome)
    (hout : outcome = OracleOutcome.error ∨ outcome = OracleOutcome.unparsable)
    (hfind : getTrickById tricks target_trick.id = some target_trick) :
    analyze_response outcome tricks response target_trick
      = fallback_analysis tricks response target_trick ∧
    ∃ cl r, classify_response tricks response target_trick.id = some cl ∧
      fallback_analysis tricks response target_trick = some r ∧
      r.score = cl.confidence ∧ r.confidence = cl.confidence / 100 ∧
      trickConfidence (pyLower response) target_trick.keywords ≤ cl.confidence := by
  have hcl : ∃ cl, classify_response tricks response target_trick.id = some cl ∧
      cl.confidence = (bestMatch tricks (pyLower response) target_trick.id
        (trickConfidence (pyLower response) target_trick.keywords)).2 := by
    unfold classify_response
    rw [hfind]
    exact ⟨_, rfl, rfl⟩
  obtain ⟨cl, hcl1, hcl2⟩ := hcl
  have hfb : ∃ r, fallback_analysis tricks response target_trick = some r ∧
      r.score = cl.confidence ∧ r.confidence = cl.confidence / 100 := by
    unfold fallback_analysis
    rw [hcl1]
    exact ⟨_, rfl, rfl, rfl⟩
  obtain ⟨r, hr1, hr2, hr3⟩ := hfb
  refine ⟨by rcases hout with rfl | rfl <;> rfl, cl, r, hcl1, hr1, hr2, hr3, ?_⟩
  rw [hcl2]
  unfold bestMatch
  exact foldl_bestStep_le (pyLower response) target_trick.id tricks _

/-- C8 witness: a raised oracle call degrades to the fallback analysis. -/
theorem analyze_response_fallback_witness :
    getTrickById [demoTrick8] demoTrick8.id = some demoTrick8 ∧
    analyze_response OracleOutcome.error [demoTrick8] "my key" demoTrick8
      = fallback_analysis [demoTrick8] "my key" demoTrick8 :=
  ⟨by decide,
    (analyze_response_fallback [demoTrick8] "my key" demoTrick8 OracleOutcome.error
      (Or.inl rfl) (by decide)).1⟩

/-- C10: the fallback analysis marks the response correct exactly when the
classifier confidence is at least 30, reports that confidence as the score,
and sets `detected_trick` to the target trick's name when correct and to
nothing otherwise. -/
theorem fallback_analysis_spec (tricks : List LanguageTrick) (response : String)
    (target_trick : LanguageTrick) (cl : TrickClassification)
    (hcl : classify_response tricks response target_trick.id = some cl) :
    ∃ r, fallback_analysis tricks response target_trick = some r ∧
      (r.is_correct = true ↔ (30 : ℚ) ≤ cl.confidence) ∧
      r.score = cl.confidence ∧
      r.detected_trick
        = (if (30 : ℚ) ≤ cl.confidence then some target_trick.name else none) := by
  have hfb : ∃ r, fallback_analysis tricks response target_trick = some r ∧
      r.is_correct = decide ((30 : ℚ) ≤ cl.confidence) ∧
      r.score = cl.confidence ∧
      r.detected_trick = (if decide ((30 : ℚ) ≤ cl.confidence) = true
        then some target_trick.name else none) := by
    unfold fallback_analysis
    rw [hcl]
    exact ⟨_, rfl, rfl, rfl, rfl⟩
  obtain ⟨r, hr1, hr2, hr3, hr4⟩ := hfb
  refine ⟨r, hr1, ?_, hr3, ?_⟩
  · rw [hr2]
    simp
  · rw [hr4]
    by_cases h : (30 : ℚ) ≤ cl.confidence <;> simp [h]

/-- C10 witness: a keyword hit gives confidence 100 ≥ 30, so the fallback is
correct with score 100 and the target's name as the detected trick. -/
theorem fallback_analysis_spec_witness :
    classify_response [demoTrick8] "my key" demoTrick8.id = some demoCl10 ∧
    ∃ r, fallback_analysis [demoTrick8] "my key" demoTrick8 = some r ∧
      (r.is_correct = true ↔ (30 : ℚ) ≤ demoCl10.confidence) ∧
      r.score = demoCl10.confidence ∧
      r.detected_trick
        = (if (30 : ℚ) ≤ demoCl10.confidence then some demoTrick8.name else none) := by
  have hfind8 : getTrickById [demoTrick8] demoTrick8.id = some demoTrick8 := by decide
  have hk8 : keywordMatches (pyLower "my key") demoTrick8.keywords = 1 := by decide
  have hc8 : trickConfidence (pyLower "my key") demoTrick8.keywords = 100 := by
    unfold trickConfidence
    rw [hk8]
    norm_num [demoTrick8]
  have hbm8 : bestMatch [demoTrick8] (pyLower "my key") demoTrick8.id
      (trickConfidence (pyLower "my key") demoTrick8.keywords) = (demoTrick8.id, 100) := by
    rw [hc8]
    unfold bestMatch
    rw [List.foldl_cons, List.foldl_nil]
    unfold bestStep
    rw [if_pos rfl]
  have h : classify_response [demoTrick8] "my key" demoTrick8.id = some demoCl10 := by
    unfold classify_response
    rw [hfind8]
    simp only [hbm8, hk8]
    rw [if_pos (by norm_num : (100 : ℚ) > 20)]
    rw [if_neg (by simp)]
    rfl
  exact ⟨h, fallback_analysis_spec [demoTrick8] "my key" demoTrick8 demoCl10 h⟩
